import Mathlib

/-!
Verification of NX-Migrator-Pro-cn: a shallow embedding of the GUI layer
(`src/gui/main_window.py`, `src/gui/disk_selector.py`) together with
spec-modelled definitions of the core components (partition-layout
calculator and process engines) that live outside `src/`.

The GUI is embedded as an explicit state machine: `GuiState` carries the
mutable window state (`MainWindow.__init__`), and `stepE` gives the
semantics of each event handler as a state transformer that also returns
the list of user-visible UI effects (dialogs, status-bar updates,
progress-panel updates) the handler produces.
-/

/-- Partition categories, from the spec data model §3 (the scanner in
`core/partition_scanner.py` is not part of `src/`). -/
inductive PartCategory where
  | boot
  | fat32
  | linux
  | androidTraditional
  | androidDynamic
  | emummc
  | unknown
deriving DecidableEq, Repr

/-- One partition-table entry: category, start sector, sector count, label
and a stable identifier (spec §3 "Partition"). -/
structure Partition where
  category : PartCategory
  start_sector : Nat
  sector_count : Nat
  label : String
  ident : Nat
deriving DecidableEq, Repr

/-- Ordered sequence of partitions on one device plus derived flags
(spec §3 "PartitionLayout"). -/
structure PartitionLayout where
  partitions : List Partition
  has_linux : Bool
  has_android : Bool
  android_dynamic : Bool
  has_emummc : Bool
  emummc_double : Bool
deriving DecidableEq, Repr

/-- One relocation-map entry: (slot identifier, old start sector, new start
sector) — spec §3 "RelocationMap". -/
abbrev RelocEntry : Type := Nat × Nat × Nat

/-- Migration option flags, matching the `migration_options` dict keys in
`MainWindow.__init__`. -/
structure MigOptions where
  migrate_fat32 : Bool
  migrate_linux : Bool
  migrate_android : Bool
  migrate_emummc : Bool
  expand_fat32 : Bool
deriving DecidableEq, Repr

/-- Cleanup option flags, matching the `cleanup_options` dict keys in
`MainWindow.__init__`. -/
structure CleanupOptions where
  remove_linux : Bool
  remove_android : Bool
  remove_emummc : Bool
  expand_fat32 : Bool
deriving DecidableEq, Repr

/-- Layout-computation failures, from the spec error taxonomy §7. -/
inductive LayoutError where
  | insufficientSpace
  | sizeTooSmallFat32
deriving DecidableEq, Repr

/-- Bytes per sector. -/
def SECTOR_SIZE : Nat := 512

/-- Region starts are aligned to this fixed sector boundary (spec §4.2
step 5). -/
def ALIGNMENT : Nat := 2048

/-- Sectors held back for alignment padding when expanding FAT32 (spec
§4.2 step 3, the "alignment reserve"). -/
def ALIGNMENT_RESERVE : Nat := 2048

/-- Minimum admissible FAT32 size in sectors (spec §4.2 step 3, the
"fixed minimum floor"). -/
def FAT32_MIN_SECTORS : Nat := 131072

/-- Round `n` up to the next `ALIGNMENT` boundary. -/
def alignUp (n : Nat) : Nat := ((n + ALIGNMENT - 1) / ALIGNMENT) * ALIGNMENT

/-- Fallback Boot entry used only to make the calculator total; a layout
produced by the scanner always contains a Boot partition (spec §4.1). -/
def dfltBoot : Partition := ⟨PartCategory.boot, 0, 0, "", 0⟩

/-- Fallback Fat32 entry used only to make the calculator total; the
scanner fails with `MissingRequiredPartition` when Fat32 is absent
(spec §4.1), so valid sources always contain one. -/
def dfltFat : Partition := ⟨PartCategory.fat32, 0, 0, "", 0⟩

/-- Sum of the sector counts of a list of partitions. -/
def sumSectors (ps : List Partition) : Nat :=
  ps.foldl (fun a p => a + p.sector_count) 0

/-- The Boot partition of a layout (spec §4.2 step 1). -/
def bootOf (src : PartitionLayout) : Partition :=
  (src.partitions.find? (fun p => decide (p.category = PartCategory.boot))).getD dfltBoot

/-- The Fat32 partition of a layout (spec §4.2 step 3). -/
def fatOf (src : PartitionLayout) : Partition :=
  (src.partitions.find? (fun p => decide (p.category = PartCategory.fat32))).getD dfltFat

/-- The Linux partitions carried over to the target: reserved only when
selected in the options and present in the source (spec §4.2 step 2). -/
def linuxSel (o : MigOptions) (src : PartitionLayout) : List Partition :=
  if o.migrate_linux then
    src.partitions.filter (fun p => decide (p.category = PartCategory.linux))
  else []

/-- The Android partitions carried over to the target (both the dynamic
and the traditional classification), when selected. -/
def androidSel (o : MigOptions) (src : PartitionLayout) : List Partition :=
  if o.migrate_android then
    src.partitions.filter (fun p =>
      decide (p.category = PartCategory.androidTraditional) ||
      decide (p.category = PartCategory.androidDynamic))
  else []

/-- The emuMMC partitions carried over to the target, when selected. -/
def emuSel (o : MigOptions) (src : PartitionLayout) : List Partition :=
  if o.migrate_emummc then
    src.partitions.filter (fun p => decide (p.category = PartCategory.emummc))
  else []

/-- Total sectors reserved for the selected optional categories. -/
def selSumOf (o : MigOptions) (src : PartitionLayout) : Nat :=
  sumSectors (linuxSel o src) + sumSectors (androidSel o src) + sumSectors (emuSel o src)

/-- FAT32 size for the target: grown into the free space when
`expand_fat32` is set, byte-identical to the source otherwise (spec §4.2
step 3). -/
def fatSizeOf (o : MigOptions) (src : PartitionLayout) (cap : Nat) : Nat :=
  if o.expand_fat32 then
    cap - (bootOf src).sector_count - selSumOf o src - ALIGNMENT_RESERVE
  else (fatOf src).sector_count

/-- Relocate each partition of a category block to consecutive aligned
start sectors beginning at `cur`, keeping every size byte-identical
(spec §4.2 steps 2 and 5). -/
def placeParts : Nat → List Partition → List Partition
  | _, [] => []
  | cur, p :: ps =>
      let st := alignUp cur
      { p with start_sector := st } :: placeParts (st + p.sector_count) ps

/-- End position (first unused sector) after `placeParts cur ps`. -/
def placeEndPos : Nat → List Partition → Nat
  | cur, [] => cur
  | cur, p :: ps => placeEndPos (alignUp cur + p.sector_count) ps

/-- Relocation-map entries for emuMMC slots whose start sector changed
(spec §4.2 step 6): the old and new lists are walked in parallel. -/
def relocOf : List Partition → List Partition → List RelocEntry
  | p :: ps, q :: qs =>
      (if p.start_sector ≠ q.start_sector then [(p.ident, p.start_sector, q.start_sector)] else [])
        ++ relocOf ps qs
  | _, _ => []

/-- Assemble the target layout in the fixed region order Boot, Fat32,
Linux, Android, Emummc (spec §4.2 step 5), with the Boot region kept at
its source offset and size (step 1), and the relocation map for the
emuMMC slots (step 6). -/
def buildLayout (src : PartitionLayout) (bootP fatP : Partition) (fatSize : Nat)
    (linuxParts androidParts emuParts : List Partition) :
    PartitionLayout × List RelocEntry :=
  let fatStart := alignUp (bootP.start_sector + bootP.sector_count)
  let afterFat := fatStart + fatSize
  let linuxOut := placeParts afterFat linuxParts
  let aStart := placeEndPos afterFat linuxParts
  let androidOut := placeParts aStart androidParts
  let eStart := placeEndPos aStart androidParts
  let emuOut := placeParts eStart emuParts
  ({ partitions := bootP :: { fatP with start_sector := fatStart, sector_count := fatSize }
        :: (linuxOut ++ androidOut ++ emuOut),
     has_linux := !linuxOut.isEmpty,
     has_android := !androidOut.isEmpty,
     android_dynamic := src.android_dynamic && !androidOut.isEmpty,
     has_emummc := !emuOut.isEmpty,
     emummc_double := src.emummc_double && !emuOut.isEmpty },
   relocOf emuParts emuOut)

/-- Modelled from the spec: `PartitionScanner.calculate_target_layout`
lives in `core/partition_scanner.py`, which is not part of `src/`; this
definition follows the layout-calculator contract of spec §4.2
(`plan(source, target_capacity, options)`): reserve Boot unchanged,
reserve byte-identical sizes for each selected optional category, compute
the FAT32 size (failing with `SizeTooSmallFat32` below the fixed floor),
fail with `InsufficientSpace` when the reserved regions exceed the target
capacity, and lay the regions out aligned in the fixed category order.
The GUI passes the capacity in bytes (`size_bytes`); sector granularity
is obtained by dividing by the sector size. -/
def calculate_target_layout (src : PartitionLayout) (capacity_bytes : Nat)
    (o : MigOptions) : Except LayoutError (PartitionLayout × List RelocEntry) :=
  let cap := capacity_bytes / SECTOR_SIZE
  let fatSize := fatSizeOf o src cap
  if fatSize < FAT32_MIN_SECTORS then Except.error LayoutError.sizeTooSmallFat32
  else if cap < (bootOf src).sector_count + fatSize + selSumOf o src then
    Except.error LayoutError.insufficientSpace
  else
    Except.ok (buildLayout src (bootOf src) (fatOf src) fatSize
      (linuxSel o src) (androidSel o src) (emuSel o src))

/-- The options dict `_calculate_layout` builds for the calculator in
cleanup mode (`main_window.py` lines 534-540): FAT32 is always kept and
each category's migrate flag is the negation of its cleanup remove
flag. -/
def cleanupOptionsForCalc (c : CleanupOptions) : MigOptions :=
  { migrate_fat32 := true,
    migrate_linux := !c.remove_linux,
    migrate_android := !c.remove_android,
    migrate_emummc := !c.remove_emummc,
    expand_fat32 := c.expand_fat32 }

/-- Decidable check that no partition of a layout has the given
category. -/
def noCat (c : PartCategory) (L : PartitionLayout) : Bool :=
  L.partitions.all (fun p => !(decide (p.category = c)))

/-- Events an engine run delivers to the caller's callbacks (spec §6:
`on_progress(stage, percent, message)`, `on_complete()`,
`on_error(message)`). -/
inductive CbEvent where
  | onProgress (stage : String) (percent : Nat) (message : String)
  | onComplete
  | onError (msg : String)
deriving DecidableEq, Repr

/-- Whether a callback event is a progress report. -/
def isProgressEv : CbEvent → Bool
  | CbEvent.onProgress _ _ _ => true
  | _ => false

/-- Whether a callback event is terminal (`on_complete` or `on_error`). -/
def isTerminalEv : CbEvent → Bool
  | CbEvent.onComplete => true
  | CbEvent.onError _ => true
  | _ => false

/-- Outcome of one engine stage: either it succeeds after emitting some
progress reports, or it fails with a message after emitting some
progress reports. -/
inductive StageResult where
  | ok (reports : List (String × Nat × String))
  | fail (reportsBefore : List (String × Nat × String)) (errMsg : String)
deriving Repr

/-- Turn a stage's progress reports into callback events. -/
def emitProgress (rs : List (String × Nat × String)) : List CbEvent :=
  rs.map (fun r => CbEvent.onProgress r.1 r.2.1 r.2.2)

/-- Modelled from the spec: `MigrationEngine.run` and `CleanupEngine.run`
live in `core/migration_engine.py` and `core/cleanup_engine.py`, which are
not part of `src/`. Per spec §4.3/§4.4/§6, `run(operation)` executes the
stage sequence synchronously on the worker, each stage reporting progress
as it goes; the first failing stage ends the run with `on_error`, and a
run in which every stage succeeds ends with `on_complete`. The callback
trace of a run is a function of the per-stage outcomes. -/
def run : List StageResult → List CbEvent
  | [] => [CbEvent.onComplete]
  | StageResult.ok rs :: rest => emitProgress rs ++ run rest
  | StageResult.fail rs m :: _ => emitProgress rs ++ [CbEvent.onError m]

/-- The GUI's two operating modes (`MainWindow.current_mode`). -/
inductive Mode where
  | migration
  | cleanup
deriving DecidableEq, Repr

/-- Deferred main-thread work a worker-side callback schedules with
`root.after(0, ...)` (`main_window.py` lines 807-869). -/
inductive MainThunk where
  | progressUpd (stage : String) (percent : Nat)
  | statusUpd (msg : String)
  | completeUi
  | errorUi (msg : String)
deriving DecidableEq, Repr

/-- What a worker-side callback handler does: either re-dispatch work onto
the Tk main thread via `root.after`, or (hypothetically) mutate UI state
directly on the worker thread — the handlers in `main_window.py` never do
the latter. -/
inductive WorkerEffect where
  | afterDispatch (t : MainThunk)
  | directUi (t : MainThunk)
deriving DecidableEq, Repr

/-- Whether a worker-side effect is an `root.after` re-dispatch. -/
def isAfterDispatch : WorkerEffect → Bool
  | WorkerEffect.afterDispatch _ => true
  | WorkerEffect.directUi _ => false

/-- `_on_operation_progress` (`main_window.py` lines 807-813): schedules
the progress-panel update and the status-bar update on the main thread. -/
def onOperationProgress (stage : String) (percent : Nat) (message : String) :
    List WorkerEffect :=
  [WorkerEffect.afterDispatch (MainThunk.progressUpd stage percent),
   WorkerEffect.afterDispatch (MainThunk.statusUpd (stage ++ " - " ++ message))]

/-- `_on_operation_complete` (`main_window.py` lines 815-841): schedules
the `complete_ui` closure on the main thread. -/
def onOperationComplete : List WorkerEffect :=
  [WorkerEffect.afterDispatch MainThunk.completeUi]

/-- `_on_operation_error` (`main_window.py` lines 843-869): schedules the
`error_ui` closure on the main thread. -/
def onOperationError (msg : String) : List WorkerEffect :=
  [WorkerEffect.afterDispatch (MainThunk.errorUi msg)]

/-- User-visible UI effects produced by the main-thread handlers. -/
inductive UiEffect where
  | showInfo (title : String) (message : String)
  | statusMsg (message : String)
  | progressStart
  | progressDone
  | progressFail
  | progressUpd (stage : String) (percent : Nat)
deriving DecidableEq, Repr

/-- Whether a list of UI effects notifies the user with a dialog. -/
def notifies (effs : List UiEffect) : Bool :=
  effs.any (fun e =>
    match e with
    | UiEffect.showInfo _ _ => true
    | _ => false)

/-- Title of the failure dialog shown by `error_ui`. -/
def errorDialogTitle : Mode → String
  | Mode.migration => "迁移失败"
  | Mode.cleanup => "清理失败"

/-- Body of the failure dialog shown by `error_ui` (`main_window.py`
lines 851-857 and 860-866). -/
def errorDialogMessage : Mode → String → String
  | Mode.migration, msg =>
      "迁移失败，错误信息：\n\n" ++ msg ++ "\n\n目标磁盘可能处于不一致状态。"
  | Mode.cleanup, msg =>
      "清理失败，错误信息：\n\n" ++ msg ++ "\n\nSD 卡可能处于不一致状态。\n如有需要，请从备份恢复。"

/-- The user-visible effects of the `error_ui` closure: the status bar is
updated and the failure dialog is shown (`main_window.py` lines
845-867). -/
def errorUiActions : Mode → String → List UiEffect
  | Mode.migration, msg =>
      [UiEffect.statusMsg ("迁移失败：" ++ msg),
       UiEffect.showInfo (errorDialogTitle Mode.migration) (errorDialogMessage Mode.migration msg)]
  | Mode.cleanup, msg =>
      [UiEffect.statusMsg ("清理失败：" ++ msg),
       UiEffect.showInfo (errorDialogTitle Mode.cleanup) (errorDialogMessage Mode.cleanup msg)]

/-- The shared "may be in an inconsistent state" phrase of both failure
dialogs. -/
def inconsistNote : String := "可能处于不一致状态"

/-- Substring containment, stated over the character data of the
strings. -/
def occursIn (needle hay : String) : Prop :=
  ∃ a b : List Char, hay.data = a ++ needle.data ++ b

/-- One entry of `DiskSelectorFrame.disk_map`: the fields of the disk-info
dict that carry program-visible meaning (drive letter, display name,
physical device path, total capacity in bytes). The purely cosmetic
fields (`size_gb`, `partition_size_gb`, `index`) are used only inside
display strings and are not modelled. -/
structure DiskInfo where
  letter : String
  name : String
  path : String
  size_bytes : Nat
deriving DecidableEq, Repr

/-- The mutable window state of `MainWindow` (its `__init__` fields) plus
the state of its `DiskSelectorFrame` (`sel_source`/`sel_target` are the
selector's own `source_disk`/`target_disk`, `source_combo`/`target_combo`
the combobox selections) and the two `PartitionViewerFrame`s (a frame
holds the layout it displays together with the disk it is attributed to).
`running` records that an engine worker thread is active (set when
`_start_migration` spawns the thread, cleared by the terminal callback);
while it is set, `_set_ui_enabled(False)` has disabled the selector, the
scan button, the action button and the options frame — but not the two
mode buttons. -/
structure GuiState where
  mode : Mode
  source_disk : Option DiskInfo
  target_disk : Option DiskInfo
  source_layout : Option PartitionLayout
  target_layout : Option PartitionLayout
  migration_options : MigOptions
  cleanup_options : CleanupOptions
  migrate_enabled : Bool
  scan_enabled : Bool
  running : Bool
  sel_source : Option DiskInfo
  sel_target : Option DiskInfo
  source_combo : Option DiskInfo
  target_combo : Option DiskInfo
  source_frame : Option (PartitionLayout × Option DiskInfo)
  target_frame : Option (PartitionLayout × Option DiskInfo)
deriving DecidableEq, Repr

/-- The window state right after `MainWindow.__init__`: migration mode,
nothing selected, no layouts, the action button disabled, and the default
option dicts. -/
def initState : GuiState :=
  { mode := Mode.migration,
    source_disk := none,
    target_disk := none,
    source_layout := none,
    target_layout := none,
    migration_options :=
      { migrate_fat32 := true, migrate_linux := true, migrate_android := true,
        migrate_emummc := true, expand_fat32 := true },
    cleanup_options :=
      { remove_linux := false, remove_android := false, remove_emummc := false,
        expand_fat32 := true },
    migrate_enabled := false,
    scan_enabled := true,
    running := false,
    sel_source := none,
    sel_target := none,
    source_combo := none,
    target_combo := none,
    source_frame := none,
    target_frame := none }

/-- Conversion of the options frame's migrate-flags into cleanup options
(`main_window.py` lines 388-393 and 463-468): in cleanup mode a checked
category means "remove". -/
def toCleanupOptions (o : MigOptions) : CleanupOptions :=
  { remove_linux := o.migrate_linux,
    remove_android := o.migrate_android,
    remove_emummc := o.migrate_emummc,
    expand_fat32 := o.expand_fat32 }

/-- `_calculate_layout` (`main_window.py` lines 494-571): guard dialogs
when information is missing, then in migration mode call the calculator
with the target disk's capacity, in cleanup mode with the source disk's
own capacity, display the result attributed to the corresponding disk and
enable the action button; a calculator failure is caught and reported
with a dialog, leaving the state untouched. Dialog and status texts whose
exact wording is irrelevant to the claims (the layout-comparison summary,
sizes inside messages) are elided to fixed strings. -/
def calculate_layout (s : GuiState) : GuiState × List UiEffect :=
  match s.source_layout with
  | none => (s, [UiEffect.showInfo "缺少信息" "请先扫描 SD 卡。"])
  | some srcL =>
    match s.mode, s.target_disk with
    | Mode.migration, none => (s, [UiEffect.showInfo "缺少信息" "请先选择目标磁盘。"])
    | Mode.migration, some td =>
        match calculate_target_layout srcL td.size_bytes s.migration_options with
        | Except.ok (L, _) =>
            ({ s with target_layout := some L,
                      target_frame := some (L, some td),
                      migrate_enabled := true },
             [UiEffect.statusMsg "正在计算新分区布局...",
              UiEffect.showInfo "布局对比" "迁移摘要",
              UiEffect.statusMsg "布局计算完成。准备开始迁移。"])
        | Except.error _ =>
            (s, [UiEffect.statusMsg "正在计算新分区布局...",
                 UiEffect.showInfo "计算失败" "计算新布局失败",
                 UiEffect.statusMsg "布局计算失败。"])
    | Mode.cleanup, _ =>
        match s.source_disk with
        | none =>
            (s, [UiEffect.statusMsg "正在计算新分区布局...",
                 UiEffect.showInfo "计算失败" "计算新布局失败",
                 UiEffect.statusMsg "布局计算失败。"])
        | some sd =>
            match calculate_target_layout srcL sd.size_bytes
                (cleanupOptionsForCalc s.cleanup_options) with
            | Except.ok (L, _) =>
                ({ s with target_layout := some L,
                          target_frame := some (L, some sd),
                          migrate_enabled := true },
                 [UiEffect.statusMsg "正在计算新分区布局...",
                  UiEffect.showInfo "清理摘要" "清理摘要",
                  UiEffect.statusMsg "清理预览准备完成。准备开始清理。"])
            | Except.error _ =>
                (s, [UiEffect.statusMsg "正在计算新分区布局...",
                     UiEffect.showInfo "计算失败" "计算新布局失败",
                     UiEffect.statusMsg "布局计算失败。"])

/-- `_switch_mode` (`main_window.py` lines 289-348): a no-op when already
in the requested mode; otherwise relabels the UI and resets the disk
selections, the layouts, the displayed frames, and disables the action
button. -/
def stepSwitchMode (s : GuiState) (m : Mode) : GuiState × List UiEffect :=
  if s.mode = m then (s, [])
  else
    ({ s with mode := m,
              source_disk := none,
              target_disk := none,
              source_layout := none,
              target_layout := none,
              source_frame := none,
              target_frame := none,
              migrate_enabled := false,
              source_combo := none,
              sel_source := none,
              target_combo := none,
              sel_target := none },
     [UiEffect.statusMsg "模式已切换"])

/-- `DiskSelectorFrame._on_source_selected` followed by the
`MainWindow._on_source_selected` callback (`disk_selector.py` lines
202-219, `main_window.py` lines 350-358): record the selection, drop the
stale source layout, clear both displayed frames and disable the action
button. -/
def stepSelectSource (s : GuiState) (d : DiskInfo) : GuiState × List UiEffect :=
  ({ s with source_combo := some d,
            sel_source := some d,
            source_disk := some d,
            source_layout := none,
            source_frame := none,
            target_frame := none,
            migrate_enabled := false },
   [UiEffect.statusMsg ("Source selected: " ++ d.letter ++ " - " ++ d.name)])

/-- `MainWindow._on_target_selected` (`main_window.py` lines 360-379):
record the target, drop the stale target layout and disable the button;
then, when a source is selected and the new target is not strictly
larger, notify the user, clear the selector's target
(`DiskSelectorFrame.clear_target`, `disk_selector.py` lines 253-257) and
reset the stored target to unset. -/
def mainTargetSelected (s : GuiState) (d : DiskInfo) : GuiState × List UiEffect :=
  let s1 := { s with sel_target := some d,
                     target_disk := some d,
                     target_layout := none,
                     target_frame := none,
                     migrate_enabled := false }
  match s1.source_disk with
  | some src =>
      if d.size_bytes ≤ src.size_bytes then
        ({ s1 with target_combo := none, sel_target := none, target_disk := none },
         [UiEffect.showInfo "无效目标"
            ("目标磁盘 (" ++ d.letter ++ ") 必须大于源磁盘 (" ++ src.letter ++ ")")])
      else
        (s1, [UiEffect.statusMsg ("Target selected: " ++ d.letter ++ " - " ++ d.name)])
  | none =>
      (s1, [UiEffect.statusMsg ("Target selected: " ++ d.letter ++ " - " ++ d.name)])

/-- `DiskSelectorFrame._on_target_selected` (`disk_selector.py` lines
221-251): the combobox now holds `d`; when `d` is the same physical
device as the selector's source, notify the user, clear the combobox text
and return without touching the stored target; otherwise store it and
invoke the `MainWindow` callback. -/
def stepSelectTarget (s : GuiState) (d : DiskInfo) : GuiState × List UiEffect :=
  let s0 := { s with target_combo := some d }
  match s0.sel_source with
  | some src =>
      if d.path = src.path then
        ({ s0 with target_combo := none },
         [UiEffect.showInfo "无效选择" "目标磁盘不能与源磁盘相同!"])
      else mainTargetSelected s0 d
  | none => mainTargetSelected s0 d

/-- `_scan_sd_cards` (`main_window.py` lines 403-434): reject when no
source (and, in migration mode, no target) is selected; otherwise disable
the scan button and hand off to the scanner thread, whose result arrives
later as a scan-completion or scan-error event. -/
def stepScanStart (s : GuiState) : GuiState × List UiEffect :=
  match s.source_disk with
  | none => (s, [UiEffect.showInfo "未选择磁盘" "请先选择一个SD卡。"])
  | some _ =>
    match s.mode, s.target_disk with
    | Mode.migration, none => (s, [UiEffect.showInfo "未选择目标磁盘" "请选择源和目标SD卡。"])
    | _, _ =>
        ({ s with scan_enabled := false },
         [UiEffect.statusMsg "正在扫描..."])

/-- `_on_scan_complete` (`main_window.py` lines 436-479): store the
scanned layout, re-enable the scan button, display the source layout,
sync the option dicts from the options frame (that frame's widget state
after `update_available_partitions` is not part of `src/`, so its option
values `fopts` arrive with the event), then recalculate the target
layout. -/
def stepScanOk (s : GuiState) (L : PartitionLayout) (fopts : MigOptions) :
    GuiState × List UiEffect :=
  let s1 := { s with source_layout := some L,
                     scan_enabled := true,
                     source_frame := some (L, s.source_disk),
                     migration_options :=
                       if s.mode = Mode.migration then fopts else s.migration_options,
                     cleanup_options :=
                       if s.mode = Mode.cleanup then toCleanupOptions fopts
                       else s.cleanup_options }
  let r := calculate_layout s1
  (r.1, UiEffect.statusMsg "扫描完成" :: r.2)

/-- `_on_scan_error` (`main_window.py` lines 481-492): re-enable the scan
button, show the failure dialog and update the status bar — nothing else
changes. -/
def stepScanFail (s : GuiState) (msg : String) : GuiState × List UiEffect :=
  ({ s with scan_enabled := true },
   [UiEffect.showInfo "扫描失败" ("磁盘扫描失败:\n\n" ++ msg),
    UiEffect.statusMsg "扫描失败。请重试。"])

/-- `_on_options_changed` (`main_window.py` lines 381-401): store the new
options (converted in cleanup mode), then recalculate when a source
layout (and, in migration mode, a target disk) is available. -/
def stepOptionsChanged (s : GuiState) (opts : MigOptions) : GuiState × List UiEffect :=
  match s.mode with
  | Mode.migration =>
      let s1 := { s with migration_options := opts }
      if s1.source_layout.isSome && s1.target_disk.isSome then calculate_layout s1
      else (s1, [])
  | Mode.cleanup =>
      let s1 := { s with cleanup_options := toCleanupOptions opts }
      if s1.source_layout.isSome then calculate_layout s1
      else (s1, [])

/-- `_start_migration` (`main_window.py` lines 656-805): the two
confirmation dialogs are interactive, so the user's answers arrive with
the event; when either is declined nothing happens. Building the first
confirmation message dereferences the selected disks (and, in cleanup
mode, the scanned layout), so the handler dies without mutating anything
when they are unset. On confirmation the UI is disabled
(`_set_ui_enabled(False)` — which does not touch the two mode buttons),
the engine is constructed with its callbacks and its worker thread is
started. -/
def stepStartOp (s : GuiState) (confirm1 confirm2 : Bool) : GuiState × List UiEffect :=
  match s.mode with
  | Mode.migration =>
      match s.source_disk, s.target_disk with
      | some _, some _ =>
          if confirm1 && confirm2 then
            ({ s with migrate_enabled := false, scan_enabled := false, running := true },
             [UiEffect.statusMsg "迁移进行中...", UiEffect.progressStart])
          else (s, [])
      | _, _ => (s, [])
  | Mode.cleanup =>
      match s.source_disk, s.source_layout with
      | some _, some _ =>
          if confirm1 && confirm2 then
            ({ s with migrate_enabled := false, scan_enabled := false, running := true },
             [UiEffect.statusMsg "清理进行中...", UiEffect.progressStart])
          else (s, [])
      | _, _ => (s, [])

/-- The `complete_ui` closure scheduled by `_on_operation_complete`
(`main_window.py` lines 817-839): mark the progress panel complete,
re-enable the whole UI (`_set_ui_enabled(True)` — unconditionally setting
the action button back to NORMAL), and report success. -/
def stepOpComplete (s : GuiState) : GuiState × List UiEffect :=
  ({ s with running := false, migrate_enabled := true, scan_enabled := true },
   [UiEffect.progressDone,
    UiEffect.statusMsg (if s.mode = Mode.migration then "迁移成功完成！" else "清理成功完成！"),
    UiEffect.showInfo (if s.mode = Mode.migration then "迁移完成" else "清理完成") "成功完成"])

/-- The `error_ui` closure scheduled by `_on_operation_error`
(`main_window.py` lines 845-867): mark the progress panel failed,
re-enable the whole UI, and surface the failure (status bar plus
dialog). -/
def stepOpError (s : GuiState) (msg : String) : GuiState × List UiEffect :=
  ({ s with running := false, migrate_enabled := true, scan_enabled := true },
   UiEffect.progressFail :: errorUiActions s.mode msg)

/-- The GUI events: user interactions and the asynchronous completions
delivered back onto the Tk main thread (`root.after`). `scanOk`/`scanFail`
carry the scanner thread's result, `opProgress`/`opComplete`/`opError`
the engine callbacks' scheduled closures. -/
inductive Event where
  | switchMode (m : Mode)
  | selectSource (d : DiskInfo)
  | selectTarget (d : DiskInfo)
  | scanStart
  | scanOk (L : PartitionLayout) (fopts : MigOptions)
  | scanFail (msg : String)
  | optionsChanged (opts : MigOptions)
  | startOp (confirm1 confirm2 : Bool)
  | opProgress (stage : String) (percent : Nat) (msg : String)
  | opComplete
  | opError (msg : String)

/-- Semantics of one event: the handler's state update together with the
UI effects it produces. -/
def stepE (s : GuiState) : Event → GuiState × List UiEffect
  | Event.switchMode m => stepSwitchMode s m
  | Event.selectSource d => stepSelectSource s d
  | Event.selectTarget d => stepSelectTarget s d
  | Event.scanStart => stepScanStart s
  | Event.scanOk L fopts => stepScanOk s L fopts
  | Event.scanFail msg => stepScanFail s msg
  | Event.optionsChanged opts => stepOptionsChanged s opts
  | Event.startOp c1 c2 => stepStartOp s c1 c2
  | Event.opProgress stage percent msg =>
      (s, [UiEffect.progressUpd stage percent,
           UiEffect.statusMsg (stage ++ " - " ++ msg)])
  | Event.opComplete => stepOpComplete s
  | Event.opError msg => stepOpError s msg

/-- State part of `stepE`. -/
def step (s : GuiState) (e : Event) : GuiState := (stepE s e).1

/-- Run a sequence of events from a state. -/
def runTrace (s : GuiState) (es : List Event) : GuiState := es.foldl step s

/-- Which events can be delivered in a state when the widgets disabled by
`_set_ui_enabled(False)` really are inert during a run: every user
interaction and scan completion requires no running operation, starting
an operation additionally requires the action button to be enabled, and
the engine's callbacks require a running operation. (The real window
violates this for `switchMode`: the two mode buttons are never
disabled.) -/
def allowedB (s : GuiState) : Event → Bool
  | Event.switchMode _ => !s.running
  | Event.selectSource _ => !s.running
  | Event.selectTarget _ => !s.running
  | Event.scanStart => !s.running
  | Event.scanOk _ _ => !s.running
  | Event.scanFail _ => !s.running
  | Event.optionsChanged _ => !s.running
  | Event.startOp _ _ => s.migrate_enabled && !s.running
  | Event.opProgress _ _ _ => s.running
  | Event.opComplete => s.running
  | Event.opError _ => s.running

/-- A trace every step of which is allowed. -/
def okTraceB : GuiState → List Event → Bool
  | _, [] => true
  | s, e :: es => allowedB s e && okTraceB (step s e) es

/-- Both layouts are present. -/
def layoutsSet (s : GuiState) : Bool :=
  s.source_layout.isSome && s.target_layout.isSome

/-- The action-button invariant: whenever the button is enabled — and
whenever an operation is running — both the scanned source layout and the
computed target layout are present. -/
def InvB (s : GuiState) : Bool :=
  (!s.migrate_enabled || layoutsSet s) && (!s.running || layoutsSet s)

/-- Demonstration source disk: 128 MiB card on physical drive 1. -/
def dSrc : DiskInfo := ⟨"E:", "SourceCard", "\\\\.\\PhysicalDrive1", 134217728⟩

/-- Demonstration valid target disk: 256 MiB card on physical drive 2. -/
def dBig : DiskInfo := ⟨"F:", "BigCard", "\\\\.\\PhysicalDrive2", 268435456⟩

/-- Demonstration undersized target disk: 64 MiB card on physical
drive 3. -/
def dSmall : DiskInfo := ⟨"G:", "SmallCard", "\\\\.\\PhysicalDrive3", 67108864⟩

/-- Demonstration scanned layout: Boot plus a FAT32 data partition. -/
def demoLayout : PartitionLayout :=
  ⟨[⟨PartCategory.boot, 0, 2048, "boot", 0⟩,
    ⟨PartCategory.fat32, 2048, 100000, "hos_data", 1⟩],
   false, false, false, false, false⟩

/-- Demonstration scanned layout with every optional category present. -/
def demoLayoutFull : PartitionLayout :=
  ⟨[⟨PartCategory.boot, 0, 2048, "boot", 0⟩,
    ⟨PartCategory.fat32, 2048, 100000, "hos_data", 1⟩,
    ⟨PartCategory.linux, 200000, 8192, "l4t", 2⟩,
    ⟨PartCategory.androidDynamic, 300000, 8192, "super", 3⟩,
    ⟨PartCategory.emummc, 400000, 8192, "emummc", 4⟩],
   true, true, true, false, false⟩

/-- Cleanup options with every removable category selected for
removal. -/
def removeAll : CleanupOptions :=
  ⟨true, true, true, true⟩

/-- Relocation preserves each partition's category. -/
theorem placeParts_cat (cur : Nat) (ps : List Partition) (p : Partition)
    (hp : p ∈ placeParts cur ps) : ∃ q ∈ ps, p.category = q.category := by
  induction ps generalizing cur with
  | nil => simp [placeParts] at hp
  | cons q qs ih =>
      simp only [placeParts, List.mem_cons] at hp
      rcases hp with h | h
      · exact ⟨q, List.mem_cons_self q qs, by simp [h]⟩
      · obtain ⟨q', hq', hcat⟩ := ih _ h
        exact ⟨q', List.mem_cons_of_mem q hq', hcat⟩

/-- Looking up a category with a matching fallback yields a partition of
that category. -/
theorem find_getD_cat (l : List Partition) (c : PartCategory) (d : Partition)
    (hd : d.category = c) :
    (((l.find? (fun p => decide (p.category = c))).getD d).category) = c := by
  cases hfind : l.find? (fun p => decide (p.category = c)) with
  | none => simpa using hd
  | some q =>
      have h := List.find?_some hfind
      simp only [decide_eq_true_eq] at h
      simpa using h

/-- Every partition the calculator selects for the Linux block has
category `linux`. -/
theorem linuxSel_cat (o : MigOptions) (src : PartitionLayout) (q : Partition)
    (hq : q ∈ linuxSel o src) : q.category = PartCategory.linux := by
  unfold linuxSel at hq
  split at hq
  · simpa using (List.mem_filter.mp hq).2
  · simp at hq

/-- Every partition the calculator selects for the Android block has one
of the two Android categories. -/
theorem androidSel_cat (o : MigOptions) (src : PartitionLayout) (q : Partition)
    (hq : q ∈ androidSel o src) :
    q.category = PartCategory.androidTraditional ∨ q.category = PartCategory.androidDynamic := by
  unfold androidSel at hq
  split at hq
  · have := (List.mem_filter.mp hq).2
    simpa using this
  · simp at hq

/-- Every partition the calculator selects for the emuMMC block has
category `emummc`. -/
theorem emuSel_cat (o : MigOptions) (src : PartitionLayout) (q : Partition)
    (hq : q ∈ emuSel o src) : q.category = PartCategory.emummc := by
  unfold emuSel at hq
  split at hq
  · simpa using (List.mem_filter.mp hq).2
  · simp at hq

/-- Category census of the assembled target layout: every partition is
the Boot entry, the Fat32 entry, or a relocated copy of a partition from
one of the three selected blocks. -/
theorem buildLayout_cats (src : PartitionLayout) (bootP fatP : Partition) (fatSize : Nat)
    (lp ap ep : List Partition) (p : Partition)
    (hp : p ∈ (buildLayout src bootP fatP fatSize lp ap ep).1.partitions) :
    p.category = bootP.category ∨ p.category = fatP.category ∨
    (∃ q ∈ lp, p.category = q.category) ∨ (∃ q ∈ ap, p.category = q.category) ∨
    (∃ q ∈ ep, p.category = q.category) := by
  simp only [buildLayout, List.mem_cons, List.mem_append] at hp
  rcases hp with h | h | (h | h) | h
  · exact Or.inl (by simp [h])
  · exact Or.inr (Or.inl (by simp [h]))
  · exact Or.inr (Or.inr (Or.inl (placeParts_cat _ _ _ h)))
  · exact Or.inr (Or.inr (Or.inr (Or.inl (placeParts_cat _ _ _ h))))
  · exact Or.inr (Or.inr (Or.inr (Or.inr (placeParts_cat _ _ _ h))))

/-- A successful calculator call returns exactly the assembled layout. -/
theorem calc_ok_eq (src : PartitionLayout) (cap : Nat) (o : MigOptions)
    (r : PartitionLayout × List RelocEntry)
    (h : calculate_target_layout src cap o = Except.ok r) :
    r = buildLayout src (bootOf src) (fatOf src) (fatSizeOf o src (cap / SECTOR_SIZE))
          (linuxSel o src) (androidSel o src) (emuSel o src) := by
  simp only [calculate_target_layout] at h
  split at h
  · exact absurd h (by simp)
  · split at h
    · exact absurd h (by simp)
    · exact (Except.ok.injEq _ _ ▸ h).symm

/-- A successful calculator run contains no partition of category `c`
when none of the selectable blocks contributes one and `c` is neither
Boot nor Fat32. -/
theorem calc_ok_noCat (src : PartitionLayout) (cap : Nat) (o : MigOptions)
    (L : PartitionLayout) (M : List RelocEntry)
    (h : calculate_target_layout src cap o = Except.ok (L, M)) (c : PartCategory)
    (hcb : PartCategory.boot ≠ c) (hcf : PartCategory.fat32 ≠ c)
    (hl : ∀ q ∈ linuxSel o src, q.category ≠ c)
    (ha : ∀ q ∈ androidSel o src, q.category ≠ c)
    (he : ∀ q ∈ emuSel o src, q.category ≠ c) :
    noCat c L = true := by
  have heq := calc_ok_eq src cap o (L, M) h
  have hL : L = (buildLayout src (bootOf src) (fatOf src)
      (fatSizeOf o src (cap / SECTOR_SIZE)) (linuxSel o src) (androidSel o src)
      (emuSel o src)).1 := congrArg Prod.fst heq
  rw [hL, noCat, List.all_eq_true]
  intro p hp
  simp only [Bool.not_eq_true', decide_eq_false_iff_not]
  have hboot : (bootOf src).category = PartCategory.boot := by
    unfold bootOf; exact find_getD_cat _ _ _ rfl
  have hfat : (fatOf src).category = PartCategory.fat32 := by
    unfold fatOf; exact find_getD_cat _ _ _ rfl
  rcases buildLayout_cats src (bootOf src) (fatOf src) _ _ _ _ p hp with
    h1 | h1 | ⟨q, hq, h1⟩ | ⟨q, hq, h1⟩ | ⟨q, hq, h1⟩
  · rw [h1, hboot]; exact hcb
  · rw [h1, hfat]; exact hcf
  · rw [h1]; exact hl q hq
  · rw [h1]; exact ha q hq
  · rw [h1]; exact he q hq

/-- Claim C5: in cleanup mode the calculator options negate the remove
flags (`main_window.py` lines 534-540) — FAT32 is always kept, each
category's migrate flag is the negation of its cleanup remove flag — and
consequently a category selected for removal is absent from any layout
the calculator produces: its layout flag is cleared and no partition of
that category remains. -/
theorem cleanup_flags_inverted (co : CleanupOptions) (src : PartitionLayout) (cap : Nat) :
    ((cleanupOptionsForCalc co).migrate_fat32 = true ∧
     (cleanupOptionsForCalc co).migrate_linux = !co.remove_linux ∧
     (cleanupOptionsForCalc co).migrate_android = !co.remove_android ∧
     (cleanupOptionsForCalc co).migrate_emummc = !co.remove_emummc ∧
     (cleanupOptionsForCalc co).expand_fat32 = co.expand_fat32) ∧
    (∀ L M, calculate_target_layout src cap (cleanupOptionsForCalc co) = Except.ok (L, M) →
      (co.remove_linux = true →
        L.has_linux = false ∧ noCat PartCategory.linux L = true) ∧
      (co.remove_android = true →
        L.has_android = false ∧ noCat PartCategory.androidTraditional L = true ∧
        noCat PartCategory.androidDynamic L = true) ∧
      (co.remove_emummc = true →
        L.has_emummc = false ∧ noCat PartCategory.emummc L = true)) := by
  refine ⟨⟨rfl, rfl, rfl, rfl, rfl⟩, ?_⟩
  intro L M h
  have hL : L = (buildLayout src (bootOf src) (fatOf src)
      (fatSizeOf (cleanupOptionsForCalc co) src (cap / SECTOR_SIZE))
      (linuxSel (cleanupOptionsForCalc co) src) (androidSel (cleanupOptionsForCalc co) src)
      (emuSel (cleanupOptionsForCalc co) src)).1 :=
    congrArg Prod.fst (calc_ok_eq src cap (cleanupOptionsForCalc co) (L, M) h)
  refine ⟨?_, ?_, ?_⟩
  · intro hrl
    have hsel : linuxSel (cleanupOptionsForCalc co) src = [] := by
      simp [linuxSel, cleanupOptionsForCalc, hrl]
    refine ⟨by rw [hL]; simp [buildLayout, hsel, placeParts], ?_⟩
    exact calc_ok_noCat src cap _ L M h PartCategory.linux (by decide) (by decide)
      (fun q hq => by simp [hsel] at hq)
      (fun q hq => by
        rcases androidSel_cat _ _ _ hq with h' | h' <;> simp [h'])
      (fun q hq => by simp [emuSel_cat _ _ _ hq])
  · intro hra
    have hsel : androidSel (cleanupOptionsForCalc co) src = [] := by
      simp [androidSel, cleanupOptionsForCalc, hra]
    refine ⟨by rw [hL]; simp [buildLayout, hsel, placeParts], ?_, ?_⟩
    · exact calc_ok_noCat src cap _ L M h PartCategory.androidTraditional (by decide) (by decide)
        (fun q hq => by simp [linuxSel_cat _ _ _ hq])
        (fun q hq => by simp [hsel] at hq)
        (fun q hq => by simp [emuSel_cat _ _ _ hq])
    · exact calc_ok_noCat src cap _ L M h PartCategory.androidDynamic (by decide) (by decide)
        (fun q hq => by simp [linuxSel_cat _ _ _ hq])
        (fun q hq => by simp [hsel] at hq)
        (fun q hq => by simp [emuSel_cat _ _ _ hq])
  · intro hre
    have hsel : emuSel (cleanupOptionsForCalc co) src = [] := by
      simp [emuSel, cleanupOptionsForCalc, hre]
    refine ⟨by rw [hL]; simp [buildLayout, hsel, placeParts], ?_⟩
    exact calc_ok_noCat src cap _ L M h PartCategory.emummc (by decide) (by decide)
      (fun q hq => by simp [linuxSel_cat _ _ _ hq])
      (fun q hq => by
        rcases androidSel_cat _ _ _ hq with h' | h' <;> simp [h'])
      (fun q hq => by simp [hsel] at hq)

/-- Claim C7: the layout calculator is deterministic — two invocations on
equal source layouts, equal target capacities and equal options produce
equal results (spec §4.2: `plan` is deterministic and side-effect-free;
the calculator is a pure function of its three arguments). -/
theorem plan_deterministic (s1 s2 : PartitionLayout) (c1 c2 : Nat) (o1 o2 : MigOptions)
    (hs : s1 = s2) (hc : c1 = c2) (ho : o1 = o2) :
    calculate_target_layout s1 c1 o1 = calculate_target_layout s2 c2 o2 := by
  rw [hs, hc, ho]

/-- Witness for C7 at concrete inputs. -/
theorem plan_deterministic_witness :
    calculate_target_layout demoLayout 134217728 (cleanupOptionsForCalc removeAll) =
    calculate_target_layout demoLayout 134217728 (cleanupOptionsForCalc removeAll) :=
  plan_deterministic demoLayout demoLayout 134217728 134217728
    (cleanupOptionsForCalc removeAll) (cleanupOptionsForCalc removeAll) rfl rfl rfl

/-- Claim C6: in cleanup mode `_calculate_layout` computes the target
layout in place — the capacity handed to the calculator is the source
disk's own `size_bytes`, and the computed layout is displayed attributed
to that same source disk (`main_window.py` lines 531-551). -/
theorem cleanup_in_place (s : GuiState) (L : PartitionLayout) (d : DiskInfo)
    (hm : s.mode = Mode.cleanup) (hsl : s.source_layout = some L)
    (hsd : s.source_disk = some d) (L' : PartitionLayout) (M : List RelocEntry)
    (hok : calculate_target_layout L d.size_bytes (cleanupOptionsForCalc s.cleanup_options) =
      Except.ok (L', M)) :
    (calculate_layout s).1.target_layout = some L' ∧
    (calculate_layout s).1.target_frame = some (L', some d) := by
  unfold calculate_layout
  rw [hsl, hm, hsd]
  cases htd : s.target_disk <;> simp [hok]

/-- Claim C1: a run delivers zero or more progress callbacks followed by
exactly one terminal callback — the trace splits as a progress-only
prefix plus a single final event that is `on_complete` or `on_error`, and
the whole trace contains exactly one terminal event. -/
theorem run_callback_protocol (stages : List StageResult) :
    (∃ ps t, run stages = ps ++ [t] ∧ (∀ e ∈ ps, isProgressEv e = true) ∧
      isTerminalEv t = true) ∧
    (run stages).countP isTerminalEv = 1 := by
  induction stages with
  | nil =>
      refine ⟨⟨[], CbEvent.onComplete, rfl, by simp, rfl⟩, ?_⟩
      simp [run, List.countP_cons, isTerminalEv]
  | cons st rest ih =>
      have hemit : ∀ rs : List (String × Nat × String),
          (∀ e ∈ emitProgress rs, isProgressEv e = true) ∧
          (emitProgress rs).countP isTerminalEv = 0 := by
        intro rs
        constructor
        · intro e he
          simp only [emitProgress, List.mem_map] at he
          obtain ⟨r, _, hr⟩ := he
          rw [← hr]; rfl
        · rw [List.countP_eq_zero]
          intro e he
          simp only [emitProgress, List.mem_map] at he
          obtain ⟨r, _, hr⟩ := he
          rw [← hr]; simp [isTerminalEv]
      cases st with
      | ok rs =>
          obtain ⟨⟨ps, t, h1, h2, h3⟩, h4⟩ := ih
          refine ⟨⟨emitProgress rs ++ ps, t, ?_, ?_, h3⟩, ?_⟩
          · show emitProgress rs ++ run rest = (emitProgress rs ++ ps) ++ [t]
            rw [h1, List.append_assoc]
          · intro e he
            rcases List.mem_append.mp he with h | h
            · exact (hemit rs).1 e h
            · exact h2 e h
          · show (emitProgress rs ++ run rest).countP isTerminalEv = 1
            rw [List.countP_append, (hemit rs).2, h4]
      | fail rs m =>
          refine ⟨⟨emitProgress rs, CbEvent.onError m, rfl, (hemit rs).1, rfl⟩, ?_⟩
          show (emitProgress rs ++ [CbEvent.onError m]).countP isTerminalEv = 1
          rw [List.countP_append, (hemit rs).2]
          simp [List.countP_cons, isTerminalEv]

/-- Claim C8: the three engine-callback handlers perform no direct UI
mutation on the worker thread — every effect each of them produces is a
`root.after` re-dispatch onto the thread that owns the window state
(`main_window.py` lines 807-869). -/
theorem callbacks_redispatch :
    (∀ stage percent message,
      (onOperationProgress stage percent message).all isAfterDispatch = true) ∧
    (onOperationComplete.all isAfterDispatch = true) ∧
    (∀ msg, (onOperationError msg).all isAfterDispatch = true) :=
  ⟨fun _ _ _ => rfl, rfl, fun _ => rfl⟩

/-- Claim C3: every operation failure is surfaced — the `error_ui`
actions of both modes contain the failure dialog, whose body contains the
engine's error message and the "may be in an inconsistent state" notice,
and the `opError` event always emits exactly these actions. -/
theorem operation_error_surfaced (mode : Mode) (msg : String) (s : GuiState) :
    UiEffect.showInfo (errorDialogTitle mode) (errorDialogMessage mode msg) ∈
      errorUiActions mode msg ∧
    occursIn inconsistNote (errorDialogMessage mode msg) ∧
    occursIn msg (errorDialogMessage mode msg) ∧
    (stepE s (Event.opError msg)).2 = UiEffect.progressFail :: errorUiActions s.mode msg := by
  refine ⟨?_, ?_, ?_, rfl⟩
  · cases mode <;> simp [errorUiActions]
  · cases mode
    · refine ⟨("迁移失败，错误信息：\n\n".data ++ msg.data) ++ "\n\n目标磁盘".data,
        "。".data, ?_⟩
      have hsplit : ("\n\n目标磁盘可能处于不一致状态。" : String).data =
          "\n\n目标磁盘".data ++ inconsistNote.data ++ "。".data := by decide
      show (("迁移失败，错误信息：\n\n" ++ msg) ++ "\n\n目标磁盘可能处于不一致状态。").data = _
      rw [String.data_append, String.data_append, hsplit]
      simp [List.append_assoc]
    · refine ⟨("清理失败，错误信息：\n\n".data ++ msg.data) ++ "\n\nSD 卡".data,
        "。\n如有需要，请从备份恢复。".data, ?_⟩
      have hsplit : ("\n\nSD 卡可能处于不一致状态。\n如有需要，请从备份恢复。" : String).data =
          "\n\nSD 卡".data ++ inconsistNote.data ++ "。\n如有需要，请从备份恢复。".data := by decide
      show (("清理失败，错误信息：\n\n" ++ msg) ++
        "\n\nSD 卡可能处于不一致状态。\n如有需要，请从备份恢复。").data = _
      rw [String.data_append, String.data_append, hsplit]
      simp [List.append_assoc]
  · cases mode
    · refine ⟨"迁移失败，错误信息：\n\n".data, "\n\n目标磁盘可能处于不一致状态。".data, ?_⟩
      show (("迁移失败，错误信息：\n\n" ++ msg) ++ "\n\n目标磁盘可能处于不一致状态。").data = _
      rw [String.data_append, String.data_append]
    · refine ⟨"清理失败，错误信息：\n\n".data,
        "\n\nSD 卡可能处于不一致状态。\n如有需要，请从备份恢复。".data, ?_⟩
      show (("清理失败，错误信息：\n\n" ++ msg) ++
        "\n\nSD 卡可能处于不一致状态。\n如有需要，请从备份恢复。").data = _
      rw [String.data_append, String.data_append]

/-- The layout the calculator produces from `demoLayout` (and from
`demoLayoutFull` with every optional category removed) on a 128 MiB
device with FAT32 expansion: Boot unchanged, FAT32 grown to fill the
device minus the alignment reserve. -/
def demoResult : PartitionLayout :=
  ⟨[⟨PartCategory.boot, 0, 2048, "boot", 0⟩,
    ⟨PartCategory.fat32, 2048, 258048, "hos_data", 1⟩],
   false, false, false, false, false⟩

/-- Window state in cleanup mode with `demoLayout` scanned from
`dSrc`. -/
def wSClean : GuiState :=
  { initState with mode := Mode.cleanup, source_layout := some demoLayout,
                   source_disk := some dSrc }

/-- Witness for C6 at concrete inputs. -/
theorem cleanup_in_place_witness :
    (calculate_layout wSClean).1.target_layout = some demoResult ∧
    (calculate_layout wSClean).1.target_frame = some (demoResult, some dSrc) :=
  cleanup_in_place wSClean demoLayout dSrc rfl rfl rfl demoResult [] rfl

/-- Witness for C5 at concrete inputs: scanning a card that carries
Linux, Android and emuMMC partitions and removing all three leaves a
layout with only Boot and FAT32. -/
theorem cleanup_flags_inverted_witness :
    (cleanupOptionsForCalc removeAll).migrate_linux = !removeAll.remove_linux ∧
    demoResult.has_linux = false ∧ noCat PartCategory.linux demoResult = true ∧
    demoResult.has_android = false ∧
    noCat PartCategory.androidTraditional demoResult = true ∧
    noCat PartCategory.androidDynamic demoResult = true ∧
    demoResult.has_emummc = false ∧ noCat PartCategory.emummc demoResult = true := by
  have T := cleanup_flags_inverted removeAll demoLayoutFull 134217728
  have h2 := T.2 demoResult [] rfl
  exact ⟨T.1.2.1, (h2.1 rfl).1, (h2.1 rfl).2, (h2.2.1 rfl).1, (h2.2.1 rfl).2.1,
    (h2.2.1 rfl).2.2, (h2.2.2 rfl).1, (h2.2.2 rfl).2⟩

/-- Claim C2 (amended): a failed scan changes nothing but the scan
button — the stored source layout, the stored target layout, both
displayed frames and the action button keep exactly their previous
values, and the handler's only effects are the failure dialog and the
status update; in particular a failed scan never produces or displays a
layout and never enables the button. -/
theorem scan_failure_frame (s : GuiState) (msg : String) :
    step s (Event.scanFail msg) = { s with scan_enabled := true } ∧
    (step s (Event.scanFail msg)).source_layout = s.source_layout ∧
    (step s (Event.scanFail msg)).target_layout = s.target_layout ∧
    (step s (Event.scanFail msg)).source_frame = s.source_frame ∧
    (step s (Event.scanFail msg)).target_frame = s.target_frame ∧
    (step s (Event.scanFail msg)).migrate_enabled = s.migrate_enabled ∧
    (stepE s (Event.scanFail msg)).2 =
      [UiEffect.showInfo "扫描失败" ("磁盘扫描失败:\n\n" ++ msg),
       UiEffect.statusMsg "扫描失败。请重试。"] :=
  ⟨rfl, rfl, rfl, rfl, rfl, rfl, rfl⟩

/-- Event sequence refuting C2 as stated: a successful cleanup-mode scan
populates the layout and enables the button, and a second, failing scan
of the same device leaves them populated and enabled. -/
def trScanFail : List Event :=
  [Event.switchMode Mode.cleanup, Event.selectSource dSrc,
   Event.scanOk demoLayout initState.migration_options,
   Event.scanFail "IO error"]

/-- Counterexample to C2 as stated: after the failing scan of
`trScanFail` the stored source layout is still set, a source layout is
still displayed, and the action button is still enabled. -/
theorem scan_failure_cex :
    (runTrace initState trScanFail).source_layout = some demoLayout ∧
    (runTrace initState trScanFail).source_frame = some (demoLayout, some dSrc) ∧
    (runTrace initState trScanFail).migrate_enabled = true := by decide

/-- Claim C4 (amended): a target selection on a different physical device
whose capacity is not strictly larger than the selected source's is
rejected — the user is notified with a dialog, the selector's combobox
and stored target are cleared, the window's stored target is reset to
unset, and the action button is left disabled. (A selection with the same
physical path as the source is rejected earlier by the selector and
leaves the stored target unchanged.) -/
theorem target_too_small_rejected (s : GuiState) (d src : DiskInfo)
    (hsel : s.sel_source = some src) (hmain : s.source_disk = some src)
    (hpath : d.path ≠ src.path) (hsize : d.size_bytes ≤ src.size_bytes) :
    (step s (Event.selectTarget d)).target_disk = none ∧
    (step s (Event.selectTarget d)).sel_target = none ∧
    (step s (Event.selectTarget d)).target_combo = none ∧
    (step s (Event.selectTarget d)).migrate_enabled = false ∧
    notifies (stepE s (Event.selectTarget d)).2 = true := by
  simp only [step, stepE, stepSelectTarget, hsel]
  rw [if_neg hpath]
  unfold mainTargetSelected
  simp only [hmain]
  rw [if_pos hsize]
  exact ⟨rfl, rfl, rfl, rfl, rfl⟩

/-- Window state with `dSrc` selected as source. -/
def wSrcSel : GuiState :=
  { initState with sel_source := some dSrc, source_disk := some dSrc }

/-- Witness for C4 at concrete inputs: selecting the 64 MiB `dSmall` as
target while the 128 MiB `dSrc` is the source. -/
theorem target_too_small_rejected_witness :
    (step wSrcSel (Event.selectTarget dSmall)).target_disk = none ∧
    (step wSrcSel (Event.selectTarget dSmall)).sel_target = none ∧
    (step wSrcSel (Event.selectTarget dSmall)).target_combo = none ∧
    (step wSrcSel (Event.selectTarget dSmall)).migrate_enabled = false ∧
    notifies (stepE wSrcSel (Event.selectTarget dSmall)).2 = true :=
  target_too_small_rejected wSrcSel dSmall dSrc rfl rfl (by decide) (by decide)

/-- Event sequence refuting C4 as stated: select `dSrc` as source,
accept `dBig` as target, then pick the source itself in the target
combobox (its capacity equals, hence does not exceed, the source's). -/
def trSmallTarget : List Event :=
  [Event.selectSource dSrc, Event.selectTarget dBig, Event.selectTarget dSrc]

/-- Counterexample to C4 as stated: the final selection's capacity is not
strictly larger than the source's, yet the stored target disk is not
reset — it still holds the previously accepted `dBig`, because the
same-device rejection in the selector returns before the size check. -/
theorem target_too_small_cex :
    (runTrace initState trSmallTarget).source_disk = some dSrc ∧
    dSrc.size_bytes ≤ dSrc.size_bytes ∧
    (runTrace initState trSmallTarget).target_disk = some dBig ∧
    (runTrace initState trSmallTarget).sel_target = some dBig := by decide

/-- Claim C9: selecting a target whose physical device path equals the
selector's source path is rejected — the user is notified, the target
combobox is cleared, and nothing else changes: in particular the stored
target disk (both the selector's and the window's) is left unchanged. -/
theorem same_disk_target_rejected (s : GuiState) (d src : DiskInfo)
    (hsel : s.sel_source = some src) (hpath : d.path = src.path) :
    step s (Event.selectTarget d) = { s with target_combo := none } ∧
    (step s (Event.selectTarget d)).target_disk = s.target_disk ∧
    (step s (Event.selectTarget d)).sel_target = s.sel_target ∧
    notifies (stepE s (Event.selectTarget d)).2 = true := by
  simp only [step, stepE, stepSelectTarget, hsel]
  rw [if_pos hpath]
  exact ⟨rfl, rfl, rfl, rfl⟩

/-- Window state with `dSrc` selected as source and `dBig` already
accepted as target. -/
def wBothSel : GuiState :=
  { initState with sel_source := some dSrc, source_disk := some dSrc,
                   sel_target := some dBig, target_disk := some dBig,
                   target_combo := some dBig }

/-- Witness for C9 at concrete inputs: re-selecting the source device in
the target combobox. -/
theorem same_disk_target_rejected_witness :
    step wBothSel (Event.selectTarget dSrc) = { wBothSel with target_combo := none } ∧
    (step wBothSel (Event.selectTarget dSrc)).target_disk = wBothSel.target_disk ∧
    (step wBothSel (Event.selectTarget dSrc)).sel_target = wBothSel.sel_target ∧
    notifies (stepE wBothSel (Event.selectTarget dSrc)).2 = true :=
  same_disk_target_rejected wBothSel dSrc dSrc rfl rfl

/-- `_calculate_layout` preserves the action-button invariant: it never
clears a layout; when it enables the button it has just stored the
freshly computed target layout alongside the present source layout, and
every failure path leaves the state untouched. -/
theorem calculate_layout_inv (s : GuiState) (h : InvB s = true) :
    InvB (calculate_layout s).1 = true := by
  unfold calculate_layout
  split
  · exact h
  · split
    · exact h
    · split
      · simp_all [InvB, layoutsSet]
      · exact h
    · split
      · exact h
      · split
        · simp_all [InvB, layoutsSet]
        · exact h


/-- Each allowed event preserves the action-button invariant. -/
theorem step_inv (s : GuiState) (e : Event) (ha : allowedB s e = true)
    (h : InvB s = true) : InvB (step s e) = true := by
  cases e with
  | switchMode m =>
      have hr : s.running = false := by simpa [allowedB] using ha
      simp only [step, stepE, stepSwitchMode]
      split
      · exact h
      · simp [InvB, layoutsSet, hr]
  | selectSource d =>
      have hr : s.running = false := by simpa [allowedB] using ha
      simp [step, stepE, stepSelectSource, InvB, layoutsSet, hr]
  | selectTarget d =>
      have hr : s.running = false := by simpa [allowedB] using ha
      simp only [step, stepE, stepSelectTarget]
      cases hss : s.sel_source with
      | none =>
          simp only [hss, mainTargetSelected]
          cases hsd : s.source_disk with
          | none => simp [hsd, InvB, layoutsSet, hr]
          | some src =>
              simp only [hsd]
              by_cases hsz : d.size_bytes ≤ src.size_bytes
              · rw [if_pos hsz]; simp [InvB, layoutsSet, hr]
              · rw [if_neg hsz]; simp [InvB, layoutsSet, hr]
      | some src =>
          simp only [hss]
          by_cases hp : d.path = src.path
          · rw [if_pos hp]; simpa [InvB, layoutsSet] using h
          · rw [if_neg hp]
            simp only [mainTargetSelected]
            cases hsd : s.source_disk with
            | none => simp [hsd, InvB, layoutsSet, hr]
            | some src2 =>
                simp only [hsd]
                by_cases hsz : d.size_bytes ≤ src2.size_bytes
                · rw [if_pos hsz]; simp [InvB, layoutsSet, hr]
                · rw [if_neg hsz]; simp [InvB, layoutsSet, hr]
  | scanStart =>
      simp only [step, stepE, stepScanStart]
      split
      · exact h
      · split
        · exact h
        · simpa [InvB, layoutsSet] using h
  | scanOk L fopts =>
      have hr : s.running = false := by simpa [allowedB] using ha
      simp only [step, stepE, stepScanOk]
      apply calculate_layout_inv
      simp only [InvB, layoutsSet, Bool.and_eq_true, Bool.or_eq_true, Bool.not_eq_true'] at h ⊢
      constructor
      · rcases h.1 with h1 | h1
        · exact Or.inl h1
        · exact Or.inr ⟨rfl, h1.2⟩
      · exact Or.inl hr
  | scanFail msg =>
      simpa [step, stepE, stepScanFail, InvB, layoutsSet] using h
  | optionsChanged opts =>
      simp only [step, stepE, stepOptionsChanged]
      cases hm : s.mode with
      | migration =>
          by_cases hcond : (s.source_layout.isSome && s.target_disk.isSome) = true
          · rw [if_pos hcond]
            apply calculate_layout_inv
            simpa [InvB, layoutsSet] using h
          · rw [if_neg hcond]
            simpa [InvB, layoutsSet] using h
      | cleanup =>
          by_cases hcond : s.source_layout.isSome = true
          · rw [if_pos hcond]
            apply calculate_layout_inv
            simpa [InvB, layoutsSet] using h
          · rw [if_neg hcond]
            simpa [InvB, layoutsSet] using h
  | startOp c1 c2 =>
      have hma : s.migrate_enabled = true ∧ s.running = false := by
        simpa [allowedB] using ha
      have hls : layoutsSet s = true := by
        have h' := h
        simp only [InvB, Bool.and_eq_true, Bool.or_eq_true, Bool.not_eq_true'] at h'
        rcases h'.1 with h1 | h1
        · rw [hma.1] at h1; exact absurd h1 (by simp)
        · simpa [layoutsSet, Bool.and_eq_true] using h1
      simp only [step, stepE, stepStartOp]
      split
      · split
        · split
          · simp only [InvB, layoutsSet, Bool.and_eq_true, Bool.or_eq_true,
              Bool.not_eq_true'] at hls ⊢
            exact ⟨Or.inl trivial, Or.inr hls⟩
          · exact h
        · exact h
      · split
        · split
          · simp only [InvB, layoutsSet, Bool.and_eq_true, Bool.or_eq_true,
              Bool.not_eq_true'] at hls ⊢
            exact ⟨Or.inl trivial, Or.inr hls⟩
          · exact h
        · exact h
  | opProgress stage percent msg =>
      exact h
  | opComplete =>
      have hr : s.running = true := by simpa [allowedB] using ha
      have hls : layoutsSet s = true := by
        have h' := h
        simp only [InvB, Bool.and_eq_true, Bool.or_eq_true, Bool.not_eq_true'] at h'
        rcases h'.2 with h1 | h1
        · rw [hr] at h1; exact absurd h1 (by simp)
        · simpa [layoutsSet, Bool.and_eq_true] using h1
      simp only [step, stepE, stepOpComplete, InvB, layoutsSet, Bool.and_eq_true,
        Bool.or_eq_true, Bool.not_eq_true'] at hls ⊢
      exact ⟨Or.inr hls, Or.inl trivial⟩
  | opError msg =>
      have hr : s.running = true := by simpa [allowedB] using ha
      have hls : layoutsSet s = true := by
        have h' := h
        simp only [InvB, Bool.and_eq_true, Bool.or_eq_true, Bool.not_eq_true'] at h'
        rcases h'.2 with h1 | h1
        · rw [hr] at h1; exact absurd h1 (by simp)
        · simpa [layoutsSet, Bool.and_eq_true] using h1
      simp only [step, stepE, stepOpError, InvB, layoutsSet, Bool.and_eq_true,
        Bool.or_eq_true, Bool.not_eq_true'] at hls ⊢
      exact ⟨Or.inr hls, Or.inl trivial⟩

/-- The action-button invariant holds along every allowed trace. -/
theorem invariant_trace (es : List Event) (s : GuiState) (h : InvB s = true)
    (hok : okTraceB s es = true) : InvB (runTrace s es) = true := by
  induction es generalizing s with
  | nil => simpa [runTrace] using h
  | cons e es ih =>
      simp only [okTraceB, Bool.and_eq_true] at hok
      have h1 := step_inv s e hok.1 h
      simpa [runTrace] using ih (step s e) h1 hok.2

/-- Claim C10 (amended): along every trace in which no GUI event is
delivered while an operation is running (its terminal callback apart) —
that is, assuming the controls disabled by `_set_ui_enabled(False)`,
including the mode buttons, really are inert during a run — whenever the
action button is enabled, both the scanned source layout and the computed
target layout are set; and a mode switch, a new source selection, and a
new target selection that reaches the size check each disable the button.
(Without the assumption the claim fails: `_set_ui_enabled` never disables
the two mode buttons, so a mode switch during a run clears the layouts
and the terminal callback then unconditionally re-enables the button —
see the counterexample.) -/
theorem migrate_button_requires_layout :
    (∀ es, okTraceB initState es = true →
      (runTrace initState es).migrate_enabled = true →
      (runTrace initState es).source_layout.isSome = true ∧
      (runTrace initState es).target_layout.isSome = true) ∧
    (∀ s m, s.mode ≠ m → (step s (Event.switchMode m)).migrate_enabled = false) ∧
    (∀ (s : GuiState) (d : DiskInfo),
      (step s (Event.selectSource d)).migrate_enabled = false) ∧
    (∀ (s : GuiState) (d : DiskInfo),
      (∀ src, s.sel_source = some src → d.path ≠ src.path) →
      (step s (Event.selectTarget d)).migrate_enabled = false) := by
  refine ⟨?_, ?_, ?_, ?_⟩
  · intro es hok hen
    have hinv := invariant_trace es initState (by decide) hok
    simp only [InvB, layoutsSet, Bool.and_eq_true, Bool.or_eq_true,
      Bool.not_eq_true'] at hinv
    rcases hinv.1 with h1 | h1
    · rw [hen] at h1; exact absurd h1 (by simp)
    · exact h1
  · intro s m hne
    simp only [step, stepE, stepSwitchMode]
    rw [if_neg hne]
  · intro s d
    rfl
  · intro s d hp
    simp only [step, stepE, stepSelectTarget]
    cases hss : s.sel_source with
    | none =>
        simp only [mainTargetSelected]
        cases hsd : s.source_disk with
        | none => rfl
        | some src =>
            simp only [hsd]
            by_cases hsz : d.size_bytes ≤ src.size_bytes
            · rw [if_pos hsz]
            · rw [if_neg hsz]
    | some src =>
        simp only [hss]
        rw [if_neg (hp src hss)]
        simp only [mainTargetSelected]
        cases hsd : s.source_disk with
        | none => rfl
        | some src2 =>
            simp only [hsd]
            by_cases hsz : d.size_bytes ≤ src2.size_bytes
            · rw [if_pos hsz]
            · rw [if_neg hsz]

/-- Event sequence refuting C10 as stated: scan and plan in cleanup mode
(enabling the button), start the cleanup, click the migration mode button
while the engine is running (the mode buttons are never disabled), and
let the engine finish. -/
def trModeSwitchMidRun : List Event :=
  [Event.switchMode Mode.cleanup, Event.selectSource dSrc,
   Event.scanOk demoLayout initState.migration_options,
   Event.startOp true true, Event.switchMode Mode.migration,
   Event.opComplete]

/-- Counterexample to C10 as stated: after `trModeSwitchMidRun` the
terminal callback's unconditional `_set_ui_enabled(True)` has re-enabled
the action button although the mid-run mode switch cleared both
layouts. -/
theorem migrate_button_cex :
    (runTrace initState trModeSwitchMidRun).migrate_enabled = true ∧
    (runTrace initState trModeSwitchMidRun).source_layout = none ∧
    (runTrace initState trModeSwitchMidRun).target_layout = none := by decide

/-- Allowed event sequence reaching an enabled button: cleanup-mode scan
and plan. -/
def trCleanupScan : List Event :=
  [Event.switchMode Mode.cleanup, Event.selectSource dSrc,
   Event.scanOk demoLayout initState.migration_options]

/-- Witness for C10 at concrete inputs. -/
theorem migrate_button_requires_layout_witness :
    ((runTrace initState trCleanupScan).source_layout.isSome = true ∧
     (runTrace initState trCleanupScan).target_layout.isSome = true) ∧
    (step initState (Event.switchMode Mode.cleanup)).migrate_enabled = false ∧
    (step initState (Event.selectSource dSrc)).migrate_enabled = false ∧
    (step initState (Event.selectTarget dSrc)).migrate_enabled = false :=
  ⟨migrate_button_requires_layout.1 trCleanupScan (by decide) (by decide),
   migrate_button_requires_layout.2.1 initState Mode.cleanup (by decide),
   migrate_button_requires_layout.2.2.1 initState dSrc,
   migrate_button_requires_layout.2.2.2 initState dSrc
     (fun _ hsrc => Option.noConfusion hsrc)⟩
